import Mathlib

/-!
# CelestiaWeb — verification of the Planet Presentation & Dual-Viewer State Model

Shallow embedding of the core logic of the CelestiaWeb exoplanet viewer:
the derivation functions (`calculateMockESI`, `calculateMockHI`,
`calculateMockTemperature`, the per-frame rotation computation in `animate`),
the dual-viewer state machine of the category comparison page
(`showPlanet`, `nextPlanet`, `previousPlanet`, `changePlanetCategory`,
`syncRotation`, the search handlers), the paginated catalog browser
(`setupPaginationControls` handlers, `applyFilter`), and the catalog loaders.

Numeric catalog fields are embedded as rationals (the JS code only ever
combines them with field operations and comparisons); the transcendental
steps (`Math.pow` with fractional exponents, `Math.round`, `Math.PI`) are
embedded over the reals.  Record structures keep exactly the fields that the
modelled functions read; cosmetic rendering fields (scene, camera, meshes)
are out of scope, as are DOM updates.
-/

namespace Celestia

/-- The `ellipticalOrbit` sub-record of a catalog planet record. -/
structure EllipticalOrbit where
  period : ℚ
  semiMajorAxis : ℚ
  eccentricity : ℚ
  inclination : ℚ
deriving Repr, DecidableEq

/-- A catalog planet record, restricted to the fields read by the modelled
functions (`id`, `name`, `system`, `type`, `radius`, `ellipticalOrbit`).
The orbit is optional: the JS code accesses it with `?.` everywhere. -/
structure Planet where
  id : String
  name : String
  system : String
  type : String
  radius : ℚ
  ellipticalOrbit : Option EllipticalOrbit
deriving Repr, DecidableEq

/-- JS `obj?.field || default`: the default is used when the object is
absent or the field value is falsy (`0`). -/
def jsOr (x : Option ℚ) (d : ℚ) : ℚ :=
  match x with
  | none => d
  | some v => if v = 0 then d else v

/-- JS `Math.round`: round half up, `Math.round(x) = ⌊x + 1/2⌋`. -/
noncomputable def jsRound (x : ℝ) : ℝ :=
  ((⌊x + 1/2⌋ : ℤ) : ℝ)

/-- JS `Math.max(0, Math.min(1, x))` — the clamp to [0,1] used by the
habitability metric functions. -/
def clamp01 (x : ℝ) : ℝ :=
  max 0 (min 1 x)

/-- Source `calculateMockTemperature` (category dual-viewer page): named overrides
for Earth (288 K) and Jupiter (165 K); otherwise
`Math.round(288 * Math.pow(semiMajorAxis, -0.5))` with the semi-major axis
defaulted to `1.0` by `planet.ellipticalOrbit?.semiMajorAxis || 1.0`. -/
noncomputable def calculateMockTemperature (planet : Planet) : ℝ :=
  if planet.name = "Earth" then 288
  else if planet.name = "Jupiter" then 165
  else
    let semiMajorAxis : ℚ := jsOr (planet.ellipticalOrbit.map (·.semiMajorAxis)) 1
    let temp : ℝ := 288 * (semiMajorAxis : ℝ) ^ (-(1/2) : ℝ)
    jsRound temp

/-- Source `calculateMockESI` (category dual-viewer page): named overrides for
Earth (1.0) and Jupiter (0.15); otherwise the cube root of the product of
the radius, distance and period scores, clamped to [0,1].  The orbit fields
are defaulted by `|| 1.0` and `|| 365`. -/
noncomputable def calculateMockESI (planet : Planet) : ℝ :=
  if planet.name = "Earth" then 1
  else if planet.name = "Jupiter" then 0.15
  else
    let earthRadius : ℚ := 6371
    let radiusRatio : ℚ := planet.radius / earthRadius
    let semiMajorAxis : ℚ := jsOr (planet.ellipticalOrbit.map (·.semiMajorAxis)) 1
    let period : ℚ := jsOr (planet.ellipticalOrbit.map (·.period)) 365
    let radiusScore : ℚ := 1 - |(radiusRatio - 1) / (radiusRatio + 1)|
    let distanceScore : ℚ := 1 - |(semiMajorAxis - 1) / (semiMajorAxis + 1)|
    let periodScore : ℚ := 1 - |(period - 365.25) / (period + 365.25)|
    clamp01 (((radiusScore * distanceScore * periodScore : ℚ) : ℝ) ^ ((1:ℝ)/3))

/-- The ESI formula exactly as the specification states it: the geometric
mean of the three per-axis scores computed from the record's own
`radiusKm`, semi-major axis `a` and period `p`, clamped to [0,1] — with no
substitution of default values. -/
noncomputable def esiSpecFormula (radiusKm a p : ℚ) : ℝ :=
  let radiusScore : ℚ := 1 - |(radiusKm / 6371 - 1) / (radiusKm / 6371 + 1)|
  let axisScore : ℚ := 1 - |(a - 1) / (a + 1)|
  let periodScore : ℚ := 1 - |(p - 365.25) / (p + 365.25)|
  clamp01 (((radiusScore * axisScore * periodScore : ℚ) : ℝ) ^ ((1:ℝ)/3))

/-- The temperature formula exactly as the specification states it:
`288 * semiMajorAxisAU ^ (-0.5)` with no rounding. -/
noncomputable def temperatureSpecFormula (a : ℚ) : ℝ :=
  288 * (a : ℝ) ^ (-(1/2) : ℝ)

/-! ## Category comparison page (dual viewer with per-side category lists) -/

namespace Category

/-- The mutable per-panel viewer object of the category comparison page,
restricted to the state fields (rendering handles are out of scope). -/
structure Viewer where
  currentPlanetIndex : ℤ
  currentPlanet : Option Planet
  autoRotate : Bool
  availablePlanets : List Planet
deriving Repr, DecidableEq

/-- Source `showPlanet(viewer, index)`: silently ignores an out-of-range index,
otherwise records the new selection (`currentPlanetIndex`,
`currentPlanet := availablePlanets[index]`). -/
def showPlanet (v : Viewer) (index : ℤ) : Viewer :=
  if index < 0 ∨ (v.availablePlanets.length : ℤ) ≤ index then v
  else
    { v with
      currentPlanetIndex := index
      currentPlanet := v.availablePlanets[index.toNat]? }

/-- Source `nextPlanet(viewer)`: advance only when strictly below the last index. -/
def nextPlanet (v : Viewer) : Viewer :=
  if v.currentPlanetIndex < (v.availablePlanets.length : ℤ) - 1 then
    showPlanet v (v.currentPlanetIndex + 1)
  else v

/-- Source `previousPlanet(viewer)`: go back only when strictly above index 0. -/
def previousPlanet (v : Viewer) : Viewer :=
  if 0 < v.currentPlanetIndex then
    showPlanet v (v.currentPlanetIndex - 1)
  else v

/-- Source `toggleAutoRotate(viewer)`: flip the per-viewer rotation flag. -/
def toggleAutoRotate (v : Viewer) : Viewer :=
  { v with autoRotate := !v.autoRotate }

/-- Source `getPlanetsForCategory(category)`: the switch over the two global
catalogs — `'earth'` and `'jupiter'` filter the Solar-System list by name,
`'exoplanets'` and the default case both return the exoplanet list. -/
def getPlanetsForCategory (solarSystemPlanets exoplanets : List Planet)
    (category : String) : List Planet :=
  if category = "earth" then
    solarSystemPlanets.filter (fun p => p.name == "Earth")
  else if category = "jupiter" then
    solarSystemPlanets.filter (fun p => p.name == "Jupiter")
  else
    exoplanets

/-- Source `changePlanetCategory(viewer, category)`: install the category list,
reset the index to 0, and show the first planet when the list is
non-empty (the DOM search-box visibility toggle is out of scope). -/
def changePlanetCategory (solarSystemPlanets exoplanets : List Planet)
    (v : Viewer) (category : String) : Viewer :=
  let categoryPlanets := getPlanetsForCategory solarSystemPlanets exoplanets category
  let v1 := { v with availablePlanets := categoryPlanets, currentPlanetIndex := 0 }
  if 0 < categoryPlanets.length then showPlanet v1 0 else v1

/-- The `Empty` state of the viewer state machine: no candidates. -/
def inEmptyState (v : Viewer) : Prop :=
  v.availablePlanets = []

/-- The two viewers of the comparison session. -/
structure DualSession where
  left : Viewer
  right : Viewer
deriving Repr, DecidableEq

/-- Source `syncRotation()`: compute `newState = !leftViewer.autoRotate` and force
both viewers' `autoRotate` to it (button CSS classes are out of scope). -/
def syncRotation (s : DualSession) : DualSession :=
  let newState := !s.left.autoRotate
  { left := { s.left with autoRotate := newState }
    right := { s.right with autoRotate := newState } }

/-- The `change` handler installed by `setupSearch` on the category page:
the dropdown is populated from the global `planets` list (the exoplanet
catalog), and the chosen option's value — an index into that list — is
passed directly to `showPlanet`, which interprets it against
`viewer.availablePlanets`. -/
def searchDropdownChange (v : Viewer) (selectedIndex : ℤ) : Viewer :=
  showPlanet v selectedIndex

end Category

/-! ## Plain dual-viewer page (both panels browse the shared catalog) -/

namespace Dual

/-- The per-panel viewer object of the plain dual-viewer page; this page
has no per-viewer candidate list — both panels index the shared global
`planets` catalog. -/
structure Viewer where
  currentPlanetIndex : ℤ
  currentPlanet : Option Planet
  autoRotate : Bool
deriving Repr, DecidableEq

/-- Source `showPlanet(viewer, index)` of the plain dual-viewer page: the bounds
check and the element lookup both address the shared `planets` list. -/
def showPlanet (planets : List Planet) (v : Viewer) (index : ℤ) : Viewer :=
  if index < 0 ∨ (planets.length : ℤ) ≤ index then v
  else
    { v with
      currentPlanetIndex := index
      currentPlanet := planets[index.toNat]? }

/-- JS `s.toLowerCase()` followed by character-wise access. -/
def jsLower (s : String) : List Char :=
  s.data.map Char.toLower

/-- Whether `q` is a prefix of the second list (helper for `includesSub`). -/
def startsWith : List Char → List Char → Bool
  | _, [] => true
  | [], _ :: _ => false
  | a :: as, b :: bs => a == b && startsWith as bs

/-- JS `big.includes(q)`: `q` occurs as a contiguous substring of `big`. -/
def includesSub (q : List Char) : List Char → Bool
  | [] => q.isEmpty
  | c :: rest => startsWith (c :: rest) q || includesSub q rest

/-- The predicate of the search filter: case-insensitive substring match of
the query against `name`, `id` or `system`. -/
def matchesQuery (query : List Char) (p : Planet) : Bool :=
  includesSub query (jsLower p.name) ||
  includesSub query (jsLower p.id) ||
  includesSub query (jsLower p.system)

/-- The `input` handler installed by `setupSearch` on the plain dual-viewer
page: lowercase the query, bail out on an empty (falsy) query, filter the
full catalog, and show the unique match (by its `planets.indexOf` index)
when exactly one record matches. -/
def searchInput (planets : List Planet) (v : Viewer) (rawQuery : String) : Viewer :=
  let query := jsLower rawQuery
  if query = [] then v
  else
    let results := planets.filter (matchesQuery query)
    if results.length = 1 then
      match results.head? with
      | some m => showPlanet planets v ((planets.indexOf m : ℕ) : ℤ)
      | none => v
    else v

end Dual

/-! ## Catalog loaders -/

namespace Loader

/-- The outcome of one `fetch(...).json()` source attempt: either the
parsed document or a failure (network or parse error). -/
inductive Fetched (α : Type) where
  | ok (data : α)
  | err
deriving Repr, DecidableEq

/-- A record of the oldest legacy schema (`exoplanetData.json`), restricted
to the fields the fallback converter reads. -/
structure OldPlanet where
  name : String
  system : String
  type : String
  orbitalPeriod : Option ℚ
deriving Repr, DecidableEq

/-- The per-record fallback conversion inside `loadPlanetData`: synthesize
an id from the position, infer the radius from the type label, and build a
default orbit around the legacy `orbitalPeriod` field. -/
def convertFallbackPlanet (index : ℕ) (p : OldPlanet) : Planet :=
  { id := "FALLBACK_" ++ toString index
    name := p.name
    system := p.system
    type := p.type
    radius :=
      if p.type = "Gas Giant" then 71492
      else if p.type = "Hot Jupiter" then 47898
      else if p.type = "Super-Earth" then 8967
      else 6371
    ellipticalOrbit := some
      { period := jsOr p.orbitalPeriod 365
        semiMajorAxis := 1
        eccentricity := 0
        inclination := 89 } }

/-- JS `Array.prototype.map((x, index) => ...)`. -/
def mapWithIndex (f : ℕ → OldPlanet → Planet) : ℕ → List OldPlanet → List Planet
  | _, [] => []
  | i, p :: ps => f i p :: mapWithIndex f (i + 1) ps

/-- The built-in placeholder record of the single-viewer loader's last
fallback branch. -/
def examplePlanet : Planet :=
  { id := "EXAMPLE_01"
    name := "Example Planet"
    system := "Unknown System"
    type := "Rocky"
    radius := 6371
    ellipticalOrbit := some
      { period := 365.25
        semiMajorAxis := 1
        eccentricity := 0.0167
        inclination := 0 } }

/-- Source `loadPlanetData` of the single-viewer page: try `koiData.json`, then
`keplerData.json`, then the converted `exoplanetData.json`; if every
source fails, return the single built-in placeholder record. -/
def loadPlanetData (koi kepler : Fetched (List Planet))
    (fallback : Fetched (List OldPlanet)) : List Planet :=
  match koi with
  | .ok ps => ps
  | .err =>
    match kepler with
    | .ok ps => ps
    | .err =>
      match fallback with
      | .ok old => mapWithIndex convertFallbackPlanet 0 old
      | .err => [examplePlanet]

/-- The three global catalog lists of the category comparison page. -/
structure CategoryCatalogs where
  solarSystemPlanets : List Planet
  exoplanets : List Planet
  planets : List Planet
deriving Repr, DecidableEq

/-- Source `loadPlanetData` of the category comparison page: both fetches live in
one `try` block, so a failure of either leaves all three lists empty. -/
def loadPlanetDataCategory (solarFetch koiFetch : Fetched (List Planet)) :
    CategoryCatalogs :=
  match solarFetch, koiFetch with
  | .ok solar, .ok koi =>
    { solarSystemPlanets := solar, exoplanets := koi, planets := koi }
  | _, _ =>
    { solarSystemPlanets := [], exoplanets := [], planets := [] }

end Loader

/-! ## Paginated catalog browser -/

namespace Browser

/-- The pagination globals of the paginated browser page
(`currentPage`, `planetsPerPage`, `filteredPlanets`, `currentFilter`),
together with the full `planets` catalog they slice. -/
structure BrowserState where
  currentPage : ℤ
  planetsPerPage : ℤ
  filteredPlanets : List Planet
  currentFilter : String
  planets : List Planet
deriving Repr, DecidableEq

/-- JS `Math.ceil(a / b)` on the integer quantities of the pagination code. -/
def jsCeilDiv (a b : ℤ) : ℤ :=
  ⌈(a : ℚ) / (b : ℚ)⌉

/-- Source `applyFilter()`: recompute `filteredPlanets` from the full catalog and
the current type filter (the dropdown-count DOM update is out of scope). -/
def applyFilter (s : BrowserState) : BrowserState :=
  if s.currentFilter = "all" then
    { s with filteredPlanets := s.planets }
  else
    { s with filteredPlanets := s.planets.filter (fun p => p.type == s.currentFilter) }

/-- The `prev-page` click handler: decrement only above page 0. -/
def prevPageClick (s : BrowserState) : BrowserState :=
  if 0 < s.currentPage then { s with currentPage := s.currentPage - 1 } else s

/-- The `next-page` click handler: increment only below
`Math.ceil(filteredPlanets.length / planetsPerPage) - 1`. -/
def nextPageClick (s : BrowserState) : BrowserState :=
  let maxPages := jsCeilDiv (s.filteredPlanets.length : ℤ) s.planetsPerPage
  if s.currentPage < maxPages - 1 then { s with currentPage := s.currentPage + 1 } else s

/-- The `planet-type-filter` change handler: install the filter, reset to
the first page, and recompute the filtered list. -/
def typeFilterChange (s : BrowserState) (value : String) : BrowserState :=
  applyFilter { s with currentFilter := value, currentPage := 0 }

/-- The `planets-per-page` change handler: install the page size and reset
to the first page. -/
def planetsPerPageChange (s : BrowserState) (value : ℤ) : BrowserState :=
  { s with planetsPerPage := value, currentPage := 0 }

/-- The pagination invariant of the specification: `currentPage` lies in
`[0, ceil(filteredPlanets.length / planetsPerPage) - 1]`, or is 0 when the
filtered list is empty. -/
def pageInRange (s : BrowserState) : Prop :=
  if s.filteredPlanets = [] then s.currentPage = 0
  else 0 ≤ s.currentPage ∧
    s.currentPage ≤ jsCeilDiv (s.filteredPlanets.length : ℤ) s.planetsPerPage - 1

/-- The per-frame planet rotation computed inside `animate()`: tidally
locked angular velocity from the orbital period (defaulted by `|| 365`),
scaled by the time-acceleration base over the frame rate, times the
auto-rotate multiplier (100 when on, 1 when off). -/
noncomputable def animateRotationDelta (currentPlanet : Planet) (autoRotate : Bool) : ℝ :=
  let orbitalPeriodDays : ℚ := jsOr (currentPlanet.ellipticalOrbit.map (·.period)) 365
  let timeAccelerationBase : ℝ := 3600
  let radiansPerEarthDay : ℝ := (2 * Real.pi) / (orbitalPeriodDays : ℝ)
  let framesPerSecond : ℝ := 60
  let secondsPerDay : ℝ := 86400
  let radiansPerFrame : ℝ :=
    (radiansPerEarthDay / secondsPerDay) * (timeAccelerationBase / framesPerSecond)
  let autoRotateMultiplier : ℝ := if autoRotate then 100 else 1
  radiansPerFrame * autoRotateMultiplier

/-- The specification's `rotationAngularVelocity(record, autoRotate,
acceleration)` formula, with the acceleration multiplier exposed as a
parameter. -/
noncomputable def rotationAngularVelocity (periodDays mult : ℝ) : ℝ :=
  ((2 * Real.pi / periodDays) / 86400) * (3600 / 60) * mult

end Browser

/-! ## Sample catalog records, used by witnesses and counterexamples -/

/-- Sample orbit of the canonical Earth record. -/
def earthOrbit : EllipticalOrbit :=
  { period := 365.25, semiMajorAxis := 1, eccentricity := 0.0167, inclination := 0 }

/-- Sample canonical Earth record. -/
def earthPlanet : Planet :=
  { id := "SOL_3", name := "Earth", system := "Solar System",
    type := "Terrestrial", radius := 6371, ellipticalOrbit := some earthOrbit }

/-- Sample orbit of the canonical Jupiter record. -/
def jupiterOrbit : EllipticalOrbit :=
  { period := 4333, semiMajorAxis := 5.2, eccentricity := 0.0489, inclination := 1.3 }

/-- Sample canonical Jupiter record. -/
def jupiterPlanet : Planet :=
  { id := "SOL_5", name := "Jupiter", system := "Solar System",
    type := "Gas Giant", radius := 71492, ellipticalOrbit := some jupiterOrbit }

/-- Sample exoplanet orbit with positive period and semi-major axis. -/
def koi1Orbit : EllipticalOrbit :=
  { period := 289.9, semiMajorAxis := 0.849, eccentricity := 0, inclination := 89.8 }

/-- Sample exoplanet record. -/
def koi1 : Planet :=
  { id := "KOI-1", name := "Kepler-22 b", system := "Kepler-22",
    type := "Super-Earth", radius := 15290, ellipticalOrbit := some koi1Orbit }

/-- A second sample exoplanet record. -/
def koi2 : Planet :=
  { id := "KOI-2", name := "Kepler-452 b", system := "Kepler-452",
    type := "Super-Earth", radius := 10030,
    ellipticalOrbit := some { period := 384.8, semiMajorAxis := 1.046,
                              eccentricity := 0, inclination := 89.8 } }

/-- Orbit whose semi-major axis is zero (legal for a canonical record,
whose `semiMajorAxisAU` is only required to be non-negative). -/
def zeroAxisOrbit : EllipticalOrbit :=
  { period := 365.25, semiMajorAxis := 0, eccentricity := 0, inclination := 0 }

/-- Canonical record with a zero semi-major axis and Earth-like radius and
period. -/
def zeroAxisPlanet : Planet :=
  { id := "KOI-0", name := "Axisless", system := "Nowhere",
    type := "Unknown", radius := 6371, ellipticalOrbit := some zeroAxisOrbit }

/-- Orbit whose semi-major axis `25/9` makes `288 * a^(-0.5) = 172.8`, a
value that `Math.round` visibly changes. -/
def fracOrbit : EllipticalOrbit :=
  { period := 600, semiMajorAxis := 25/9, eccentricity := 0, inclination := 0 }

/-- Record whose mock temperature lands strictly between two integers. -/
def fracPlanet : Planet :=
  { id := "KOI-F", name := "Roundling", system := "Testis",
    type := "Rocky", radius := 6371, ellipticalOrbit := some fracOrbit }

/-- A freshly initialized plain dual-viewer panel (nothing selected yet). -/
def freshViewer : Dual.Viewer :=
  { currentPlanetIndex := 0, currentPlanet := none, autoRotate := true }

/-- A freshly initialized category-page viewer panel. -/
def freshCategoryViewer : Category.Viewer :=
  { currentPlanetIndex := 0, currentPlanet := none, autoRotate := true,
    availablePlanets := [] }

/-- Sample Solar-System catalog of the category comparison page. -/
def solarSample : List Planet := [earthPlanet, jupiterPlanet]

/-- Sample exoplanet catalog of the category comparison page. -/
def exoSample : List Planet := [koi1, koi2]

/-- The left viewer of the category page right after its initial
`changePlanetCategory(leftViewer, 'earth')`: a one-element category list. -/
def earthCategoryViewer : Category.Viewer :=
  Category.changePlanetCategory solarSample exoSample freshCategoryViewer "earth"

/-- A dual session whose left viewer rotates and whose right viewer does
not — the configuration of the C3 scenario. -/
def mixedRotationSession : Category.DualSession :=
  { left := { freshCategoryViewer with autoRotate := true }
    right := { freshCategoryViewer with autoRotate := false } }

/-- A category-page viewer currently on the last index of a two-element
list. -/
def lastIndexViewer : Category.Viewer :=
  { currentPlanetIndex := 1, currentPlanet := some jupiterPlanet,
    autoRotate := true, availablePlanets := [earthPlanet, jupiterPlanet] }

/-- A paginated-browser state on page 1 of a three-page filtered list. -/
def sampleBrowserState : Browser.BrowserState :=
  { currentPage := 1, planetsPerPage := 2,
    filteredPlanets := [earthPlanet, jupiterPlanet, koi1, koi2, fracPlanet],
    currentFilter := "all",
    planets := [earthPlanet, jupiterPlanet, koi1, koi2, fracPlanet] }

/-! ## Helper lemmas -/

theorem clamp01_nonneg (x : ℝ) : 0 ≤ clamp01 x :=
  le_max_left 0 _

theorem clamp01_le_one (x : ℝ) : clamp01 x ≤ 1 :=
  max_le (by norm_num) (min_le_left 1 x)

theorem calculateMockESI_mem_Icc (planet : Planet) :
    calculateMockESI planet ∈ Set.Icc (0:ℝ) 1 := by
  unfold calculateMockESI
  split
  · exact ⟨zero_le_one, le_refl 1⟩
  · split
    · constructor <;> norm_num
    · exact ⟨clamp01_nonneg _, clamp01_le_one _⟩

theorem clamp01_one : clamp01 1 = 1 := by
  unfold clamp01
  norm_num

theorem clamp01_zero : clamp01 0 = 0 := by
  unfold clamp01
  norm_num

theorem rpow_neg_half_frac : ((25/9 : ℝ)) ^ (-(1/2) : ℝ) = 3/5 := by
  have h : ((25/9:ℝ)) = ((5/3 : ℝ)) ^ ((2:ℕ) : ℝ) := by
    rw [Real.rpow_natCast]
    norm_num
  rw [h, ← Real.rpow_mul (by norm_num : (0:ℝ) ≤ 5/3)]
  norm_num

theorem jsCeilDiv_pos {n b : ℤ} (hn : 0 < n) (hb : 0 < b) :
    1 ≤ Browser.jsCeilDiv n b := by
  unfold Browser.jsCeilDiv
  have hq : (0:ℚ) < (n:ℚ) / (b:ℚ) :=
    div_pos (by exact_mod_cast hn) (by exact_mod_cast hb)
  have := Int.ceil_pos.mpr hq
  omega

theorem jsCeilDiv_zero (b : ℤ) : Browser.jsCeilDiv 0 b = 0 := by
  unfold Browser.jsCeilDiv
  simp

theorem applyFilter_currentPage (t : Browser.BrowserState) :
    (Browser.applyFilter t).currentPage = t.currentPage := by
  unfold Browser.applyFilter
  split_ifs <;> rfl

theorem applyFilter_planetsPerPage (t : Browser.BrowserState) :
    (Browser.applyFilter t).planetsPerPage = t.planetsPerPage := by
  unfold Browser.applyFilter
  split_ifs <;> rfl

theorem pageInRange_zero (s : Browser.BrowserState) (hper : 0 < s.planetsPerPage)
    (hpage : s.currentPage = 0) : Browser.pageInRange s := by
  unfold Browser.pageInRange
  split_ifs with h
  · exact hpage
  · refine ⟨by omega, ?_⟩
    have hlen : (0:ℤ) < (s.filteredPlanets.length : ℤ) := by
      have := List.length_pos_of_ne_nil h
      omega
    have := jsCeilDiv_pos hlen hper
    omega

theorem pageInRange_update_page (s : Browser.BrowserState) (p : ℤ) :
    Browser.pageInRange { s with currentPage := p } ↔
      (if s.filteredPlanets = [] then p = 0
       else 0 ≤ p ∧
         p ≤ Browser.jsCeilDiv (s.filteredPlanets.length : ℤ) s.planetsPerPage - 1) :=
  Iff.rfl

/-! ## Claim theorems -/

/-- C3: `toggleSyncRotation()` computes `newState = !left.autoRotate` and
forces both viewers' `autoRotate` flags to `newState`; starting from
`left.autoRotate = true` and `right.autoRotate = false`, one call sets both
flags to `false` and a second call sets both back to `true`. -/
theorem C3_toggleSyncRotation (s : Category.DualSession) :
    ((Category.syncRotation s).left.autoRotate = !s.left.autoRotate ∧
     (Category.syncRotation s).right.autoRotate = !s.left.autoRotate) ∧
    (s.left.autoRotate = true → s.right.autoRotate = false →
      ((Category.syncRotation s).left.autoRotate = false ∧
       (Category.syncRotation s).right.autoRotate = false) ∧
      ((Category.syncRotation (Category.syncRotation s)).left.autoRotate = true ∧
       (Category.syncRotation (Category.syncRotation s)).right.autoRotate = true)) := by
  refine ⟨⟨rfl, rfl⟩, fun hl _ => ?_⟩
  simp [Category.syncRotation, hl]

/-- C3 witness: the scenario of the claim, run on a concrete session whose
left viewer rotates and whose right viewer does not. -/
theorem C3_toggleSyncRotation_witness :
    ((Category.syncRotation mixedRotationSession).left.autoRotate = false ∧
     (Category.syncRotation mixedRotationSession).right.autoRotate = false) ∧
    ((Category.syncRotation (Category.syncRotation mixedRotationSession)).left.autoRotate = true ∧
     (Category.syncRotation (Category.syncRotation mixedRotationSession)).right.autoRotate = true) :=
  (C3_toggleSyncRotation mixedRotationSession).2 rfl rfl

/-- C10: the category page's search dropdown passes an index computed over
the full exoplanet catalog to `showPlanet`, which interprets it against the
viewer's current category list.  On the one-element `'earth'` category list
built from the sample catalogs, choosing the exoplanet at catalog index 1
silently does nothing, and choosing the one at catalog index 0 displays the
category list's record (Earth) instead of the chosen exoplanet. -/
theorem C10_searchDropdown_index_mismatch :
    exoSample[0]? = some koi1 ∧ exoSample[1]? = some koi2 ∧
    earthCategoryViewer.availablePlanets = [earthPlanet] ∧
    Category.searchDropdownChange earthCategoryViewer 1 = earthCategoryViewer ∧
    (Category.searchDropdownChange earthCategoryViewer 0).currentPlanet = some earthPlanet ∧
    earthPlanet ≠ koi1 := by
  refine ⟨rfl, rfl, rfl, rfl, rfl, by decide⟩

/-- C7 (amended): when every source fails, the single-viewer page's loader
returns the single built-in placeholder record, but the category
comparison page's loader leaves all three catalog lists empty. -/
theorem C7_loader_total_failure :
    Loader.loadPlanetData .err .err .err = [Loader.examplePlanet] ∧
    (Loader.loadPlanetData .err .err .err).length = 1 ∧
    (Loader.loadPlanetDataCategory .err .err).solarSystemPlanets = [] ∧
    (Loader.loadPlanetDataCategory .err .err).exoplanets = [] ∧
    (Loader.loadPlanetDataCategory .err .err).planets = [] :=
  ⟨rfl, rfl, rfl, rfl, rfl⟩

/-- C7 counterexample: the category comparison page's loader yields an
empty — not one-element — planet list when both of its sources fail, so
dependent components can observe an empty catalog. -/
theorem C7_category_loader_empty :
    (Loader.loadPlanetDataCategory .err .err).planets = [] ∧
    (Loader.loadPlanetDataCategory .err .err).planets.length ≠ 1 :=
  ⟨rfl, by decide⟩

/-- C4: on a viewer with a valid selection (`0 ≤ selectedIndex <
candidateList.length`, which presumes a non-empty list), navigation keeps
the selection valid and never wraps: `previousPlanet` at index 0 and
`nextPlanet` at the last index leave the state unchanged. -/
theorem C4_navigation_no_wrap (v : Category.Viewer)
    (h0 : 0 ≤ v.currentPlanetIndex)
    (h1 : v.currentPlanetIndex < (v.availablePlanets.length : ℤ)) :
    (0 ≤ (Category.nextPlanet v).currentPlanetIndex ∧
      (Category.nextPlanet v).currentPlanetIndex <
        ((Category.nextPlanet v).availablePlanets.length : ℤ)) ∧
    (0 ≤ (Category.previousPlanet v).currentPlanetIndex ∧
      (Category.previousPlanet v).currentPlanetIndex <
        ((Category.previousPlanet v).availablePlanets.length : ℤ)) ∧
    (v.currentPlanetIndex = 0 → Category.previousPlanet v = v) ∧
    (v.currentPlanetIndex = (v.availablePlanets.length : ℤ) - 1 →
      Category.nextPlanet v = v) := by
  refine ⟨?_, ?_, ?_, ?_⟩
  · unfold Category.nextPlanet Category.showPlanet
    split_ifs with hlt hout
    · exact ⟨h0, h1⟩
    · refine ⟨?_, ?_⟩ <;> simp <;> omega
    · exact ⟨h0, h1⟩
  · unfold Category.previousPlanet Category.showPlanet
    split_ifs with hlt hout
    · exact ⟨h0, h1⟩
    · refine ⟨?_, ?_⟩ <;> simp <;> omega
    · exact ⟨h0, h1⟩
  · intro hz
    unfold Category.previousPlanet
    rw [if_neg (by omega)]
  · intro hlast
    unfold Category.nextPlanet
    rw [if_neg (by omega)]

/-- C4 witness: on a two-element list at the last index, `nextPlanet` is a
no-op and the bounds are preserved. -/
theorem C4_navigation_no_wrap_witness :
    (0 ≤ lastIndexViewer.currentPlanetIndex ∧
      lastIndexViewer.currentPlanetIndex <
        (lastIndexViewer.availablePlanets.length : ℤ)) ∧
    Category.nextPlanet lastIndexViewer = lastIndexViewer :=
  ⟨⟨by decide, by decide⟩,
    (C4_navigation_no_wrap lastIndexViewer (by decide) (by decide)).2.2.2 (by decide)⟩

/-- C5: `changePlanetCategory` recomputes the candidate list as a view over
the full catalogs, resets the index to 0, shows the new list's first record
when the list is non-empty, and reaches the `Empty` state (no candidates)
when it is empty. -/
theorem C5_changePlanetCategory (solar exo : List Planet)
    (v : Category.Viewer) (category : String) :
    (Category.changePlanetCategory solar exo v category).availablePlanets
      = Category.getPlanetsForCategory solar exo category ∧
    (Category.changePlanetCategory solar exo v category).currentPlanetIndex = 0 ∧
    (∀ p ∈ Category.getPlanetsForCategory solar exo category, p ∈ solar ∨ p ∈ exo) ∧
    (Category.getPlanetsForCategory solar exo category ≠ [] →
      (Category.changePlanetCategory solar exo v category).currentPlanet
        = (Category.getPlanetsForCategory solar exo category).head?) ∧
    (Category.getPlanetsForCategory solar exo category = [] →
      Category.inEmptyState (Category.changePlanetCategory solar exo v category)) := by
  have hmem : ∀ p ∈ Category.getPlanetsForCategory solar exo category,
      p ∈ solar ∨ p ∈ exo := by
    intro p hp
    unfold Category.getPlanetsForCategory at hp
    split_ifs at hp with h1 h2
    · exact Or.inl (List.mem_of_mem_filter hp)
    · exact Or.inl (List.mem_of_mem_filter hp)
    · exact Or.inr hp
  by_cases hpos : 0 < (Category.getPlanetsForCategory solar exo category).length
  · have hresult : Category.changePlanetCategory solar exo v category =
        { v with
          availablePlanets := Category.getPlanetsForCategory solar exo category
          currentPlanetIndex := 0
          currentPlanet := (Category.getPlanetsForCategory solar exo category)[(0:ℤ).toNat]? } := by
      have hlen : (0:ℤ) < ((Category.getPlanetsForCategory solar exo category).length : ℤ) := by
        exact_mod_cast hpos
      unfold Category.changePlanetCategory Category.showPlanet
      simp only [if_pos hpos]
      rw [if_neg (not_or.mpr ⟨by omega, by omega⟩)]
    rw [hresult]
    refine ⟨rfl, rfl, hmem, fun _ => ?_, fun hnil => ?_⟩
    · simp [List.head?_eq_getElem?]
    · rw [hnil] at hpos
      simp at hpos
  · have hnil : Category.getPlanetsForCategory solar exo category = [] :=
      List.eq_nil_of_length_eq_zero (by omega)
    have hresult : Category.changePlanetCategory solar exo v category =
        { v with
          availablePlanets := Category.getPlanetsForCategory solar exo category
          currentPlanetIndex := 0 } := by
      unfold Category.changePlanetCategory
      simp only [if_neg hpos]
    rw [hresult]
    exact ⟨rfl, rfl, hmem, fun hne => absurd hnil hne, fun _ => hnil⟩

/-- C5 witness: switching the sample viewer to the `'earth'` category
yields the one-element Earth list, index 0, and Earth displayed. -/
theorem C5_changePlanetCategory_witness :
    Category.getPlanetsForCategory solarSample exoSample "earth" ≠ [] ∧
    (Category.changePlanetCategory solarSample exoSample freshCategoryViewer "earth").currentPlanet
      = (Category.getPlanetsForCategory solarSample exoSample "earth").head? :=
  ⟨by decide,
    (C5_changePlanetCategory solarSample exoSample freshCategoryViewer "earth").2.2.2.1
      (by decide)⟩

/-- C9: in the paginated catalog browser, changing the type filter or the
page size resets the page to 0 and lands inside the valid page range, and
the page-navigation clicks keep the page inside
`[0, ceil(filteredList.length / pageSize) - 1]` (or at 0 for an empty
filtered list). -/
theorem C9_pagination_clamped (s : Browser.BrowserState) (value : String) (size : ℤ)
    (hper : 0 < s.planetsPerPage) (hsize : 0 < size) :
    ((Browser.typeFilterChange s value).currentPage = 0 ∧
      Browser.pageInRange (Browser.typeFilterChange s value)) ∧
    ((Browser.planetsPerPageChange s size).currentPage = 0 ∧
      Browser.pageInRange (Browser.planetsPerPageChange s size)) ∧
    (Browser.pageInRange s →
      Browser.pageInRange (Browser.nextPageClick s) ∧
      Browser.pageInRange (Browser.prevPageClick s)) := by
  refine ⟨?_, ?_, ?_⟩
  · have hpage : (Browser.typeFilterChange s value).currentPage = 0 := by
      unfold Browser.typeFilterChange
      rw [applyFilter_currentPage]
    have hper' : 0 < (Browser.typeFilterChange s value).planetsPerPage := by
      unfold Browser.typeFilterChange
      rw [applyFilter_planetsPerPage]
      exact hper
    exact ⟨hpage, pageInRange_zero _ hper' hpage⟩
  · exact ⟨rfl, pageInRange_zero _ hsize rfl⟩
  · intro hinv
    constructor
    · simp only [Browser.nextPageClick]
      split_ifs with hlt
      · rw [pageInRange_update_page]
        unfold Browser.pageInRange at hinv
        split_ifs at hinv ⊢ with h
        · rw [h] at hlt
          simp only [List.length_nil, Nat.cast_zero, jsCeilDiv_zero] at hlt
          omega
        · omega
      · exact hinv
    · simp only [Browser.prevPageClick]
      split_ifs with hgt
      · rw [pageInRange_update_page]
        unfold Browser.pageInRange at hinv
        split_ifs at hinv ⊢ with h
        · omega
        · omega
      · exact hinv

/-- C9 witness: on a concrete browser state (5 filtered records, page size
2, page 1), a filter change lands on page 0 inside the valid range. -/
theorem C9_pagination_clamped_witness :
    0 < sampleBrowserState.planetsPerPage ∧
    ((Browser.typeFilterChange sampleBrowserState "all").currentPage = 0 ∧
      Browser.pageInRange (Browser.typeFilterChange sampleBrowserState "all")) :=
  ⟨by decide,
    (C9_pagination_clamped sampleBrowserState "all" 50 (by decide) (by decide)).1⟩

/-- C8: for a record with a positive orbital period, the per-frame
rotation angle computed in `animate()` equals
`(2π / periodDays) / 86400 * (3600 / 60)` times 100 with auto-rotate on
and times 1 with it off, and the underlying formula is linear in the
acceleration multiplier (doubling the multiplier doubles the angle). -/
theorem C8_rotation_linear (planet : Planet) (o : EllipticalOrbit)
    (ho : planet.ellipticalOrbit = some o) (hp : 0 < o.period) :
    (Browser.animateRotationDelta planet true
      = Browser.rotationAngularVelocity (o.period : ℝ) 100) ∧
    (Browser.animateRotationDelta planet false
      = Browser.rotationAngularVelocity (o.period : ℝ) 1) ∧
    (∀ p m : ℝ, Browser.rotationAngularVelocity p (2 * m)
      = 2 * Browser.rotationAngularVelocity p m) := by
  have hp' : o.period ≠ 0 := ne_of_gt hp
  refine ⟨?_, ?_, fun p m => ?_⟩
  · unfold Browser.animateRotationDelta Browser.rotationAngularVelocity
    rw [ho]
    simp only [Option.map_some', jsOr, if_neg hp', if_true]
  · unfold Browser.animateRotationDelta Browser.rotationAngularVelocity
    rw [ho]
    simp only [Option.map_some', jsOr, if_neg hp', Bool.false_eq_true, if_false]
  · unfold Browser.rotationAngularVelocity
    ring

/-- C8 witness: the formula instantiated on the sample exoplanet record,
whose orbital period is positive. -/
theorem C8_rotation_linear_witness :
    koi1.ellipticalOrbit = some koi1Orbit ∧ 0 < koi1Orbit.period ∧
    Browser.animateRotationDelta koi1 true
      = Browser.rotationAngularVelocity (koi1Orbit.period : ℝ) 100 :=
  ⟨rfl, by norm_num [koi1Orbit],
    (C8_rotation_linear koi1 koi1Orbit rfl (by norm_num [koi1Orbit])).1⟩

/-- C1 (amended): for a record not named Earth or Jupiter whose orbit has
a positive semi-major axis and period, `calculateMockESI` equals the
specification's geometric-mean formula on the record's own fields; Earth
yields 1.0, Jupiter 0.15, and the result always lies in [0,1].  (When the
semi-major axis is absent or zero the code substitutes 1.0 first, which is
what the counterexample exhibits.) -/
theorem C1_esi_formula :
    (∀ (planet : Planet) (o : EllipticalOrbit),
      planet.ellipticalOrbit = some o → 0 < o.semiMajorAxis → 0 < o.period →
      planet.name ≠ "Earth" → planet.name ≠ "Jupiter" →
      calculateMockESI planet = esiSpecFormula planet.radius o.semiMajorAxis o.period) ∧
    (∀ planet : Planet, planet.name = "Earth" → calculateMockESI planet = 1) ∧
    (∀ planet : Planet, planet.name = "Jupiter" → calculateMockESI planet = 0.15) ∧
    (∀ planet : Planet, calculateMockESI planet ∈ Set.Icc (0:ℝ) 1) := by
  refine ⟨?_, ?_, ?_, calculateMockESI_mem_Icc⟩
  · intro planet o ho ha hp hne hnj
    unfold calculateMockESI esiSpecFormula
    rw [if_neg hne, if_neg hnj, ho]
    simp only [Option.map_some', jsOr, if_neg (ne_of_gt ha), if_neg (ne_of_gt hp)]
  · intro planet h
    unfold calculateMockESI
    rw [if_pos h]
  · intro planet h
    unfold calculateMockESI
    rw [h, if_neg (by decide), if_pos rfl]

/-- C1 witness: the amended formula instantiated on the sample exoplanet
record (positive axis and period), plus the Earth override. -/
theorem C1_esi_formula_witness :
    koi1.ellipticalOrbit = some koi1Orbit ∧
    0 < koi1Orbit.semiMajorAxis ∧ 0 < koi1Orbit.period ∧
    calculateMockESI koi1
      = esiSpecFormula koi1.radius koi1Orbit.semiMajorAxis koi1Orbit.period ∧
    calculateMockESI earthPlanet = 1 :=
  ⟨rfl, by norm_num [koi1Orbit], by norm_num [koi1Orbit],
    C1_esi_formula.1 koi1 koi1Orbit rfl (by norm_num [koi1Orbit])
      (by norm_num [koi1Orbit]) (by decide) (by decide),
    C1_esi_formula.2.1 earthPlanet rfl⟩

/-- C1 counterexample: on a canonical record with a zero semi-major axis
(Earth-like radius and period, name distinct from the reference bodies),
the code substitutes `1.0` for the axis and returns ESI 1, while the
claim's formula on the record's own axis value yields 0. -/
theorem C1_esi_zero_axis_counterexample :
    zeroAxisPlanet.ellipticalOrbit = some zeroAxisOrbit ∧
    zeroAxisOrbit.semiMajorAxis = 0 ∧
    zeroAxisPlanet.name ≠ "Earth" ∧ zeroAxisPlanet.name ≠ "Jupiter" ∧
    calculateMockESI zeroAxisPlanet = 1 ∧
    esiSpecFormula zeroAxisPlanet.radius zeroAxisOrbit.semiMajorAxis
      zeroAxisOrbit.period = 0 ∧
    calculateMockESI zeroAxisPlanet ≠
      esiSpecFormula zeroAxisPlanet.radius zeroAxisOrbit.semiMajorAxis
        zeroAxisOrbit.period := by
  have h0 : ((0:ℝ) ^ ((1:ℝ)/3)) = 0 := Real.zero_rpow (by norm_num)
  have hcode : calculateMockESI zeroAxisPlanet = 1 := by
    unfold calculateMockESI
    rw [if_neg (by decide), if_neg (by decide)]
    norm_num [zeroAxisPlanet, zeroAxisOrbit, jsOr, clamp01, Real.one_rpow]
  have hspec : esiSpecFormula zeroAxisPlanet.radius zeroAxisOrbit.semiMajorAxis
      zeroAxisOrbit.period = 0 := by
    unfold esiSpecFormula
    norm_num [zeroAxisPlanet, zeroAxisOrbit, clamp01, h0]
  refine ⟨rfl, rfl, by decide, by decide, hcode, hspec, ?_⟩
  rw [hcode, hspec]
  norm_num

/-- C2 (amended): `calculateMockTemperature` returns 288 for Earth, 165
for Jupiter, and otherwise the nearest-integer rounding of
`288 * semiMajorAxisAU^(-0.5)`, substituting `1.0` for an absent or zero
semi-major axis; on canonical records (non-negative axis) the result is
never negative and the computation never divides by zero. -/
theorem C2_temperature_rounded :
    (∀ p : Planet, p.name = "Earth" → calculateMockTemperature p = 288) ∧
    (∀ p : Planet, p.name = "Jupiter" → calculateMockTemperature p = 165) ∧
    (∀ (p : Planet) (o : EllipticalOrbit), p.ellipticalOrbit = some o →
      o.semiMajorAxis ≠ 0 → p.name ≠ "Earth" → p.name ≠ "Jupiter" →
      calculateMockTemperature p = jsRound (temperatureSpecFormula o.semiMajorAxis)) ∧
    (∀ (p : Planet) (o : EllipticalOrbit), p.ellipticalOrbit = some o →
      o.semiMajorAxis = 0 → p.name ≠ "Earth" → p.name ≠ "Jupiter" →
      calculateMockTemperature p = jsRound (temperatureSpecFormula 1)) ∧
    (∀ p : Planet, p.ellipticalOrbit = none →
      p.name ≠ "Earth" → p.name ≠ "Jupiter" →
      calculateMockTemperature p = jsRound (temperatureSpecFormula 1)) ∧
    (∀ p : Planet, (∀ o ∈ p.ellipticalOrbit, 0 ≤ o.semiMajorAxis) →
      0 ≤ calculateMockTemperature p) := by
  refine ⟨?_, ?_, ?_, ?_, ?_, ?_⟩
  · intro p h
    unfold calculateMockTemperature
    rw [if_pos h]
  · intro p h
    unfold calculateMockTemperature
    rw [h, if_neg (by decide), if_pos rfl]
  · intro p o ho ha hne hnj
    unfold calculateMockTemperature temperatureSpecFormula
    rw [if_neg hne, if_neg hnj, ho]
    simp only [Option.map_some', jsOr, if_neg ha]
  · intro p o ho ha hne hnj
    unfold calculateMockTemperature temperatureSpecFormula
    rw [if_neg hne, if_neg hnj, ho]
    simp only [Option.map_some', jsOr, if_pos ha]
  · intro p ho hne hnj
    unfold calculateMockTemperature temperatureSpecFormula
    rw [if_neg hne, if_neg hnj, ho]
    simp only [Option.map_none', jsOr]
  · intro p hcanon
    unfold calculateMockTemperature
    split_ifs with h1 h2
    · norm_num
    · norm_num
    · have ha' : 0 < jsOr (p.ellipticalOrbit.map fun o => o.semiMajorAxis) 1 := by
        cases hopt : p.ellipticalOrbit with
        | none => norm_num [jsOr]
        | some o =>
          have hnn := hcanon o (Option.mem_def.mpr hopt)
          simp only [Option.map_some', jsOr]
          split_ifs with hz
          · norm_num
          · exact lt_of_le_of_ne hnn (Ne.symm hz)
      have hb : (0:ℝ) <
          ((jsOr (p.ellipticalOrbit.map fun o => o.semiMajorAxis) 1 : ℚ) : ℝ) := by
        exact_mod_cast ha'
      have hpow := Real.rpow_pos_of_pos hb (-(1/2) : ℝ)
      unfold jsRound
      have harg : (0:ℝ) ≤
          288 * ((jsOr (p.ellipticalOrbit.map fun o => o.semiMajorAxis) 1 : ℚ) : ℝ)
            ^ (-(1/2) : ℝ) + 1/2 := by nlinarith
      have hf := Int.floor_nonneg.mpr harg
      dsimp only
      exact_mod_cast hf

/-- C2 witness: the amended rounding formula on the record with
semi-major axis 25/9, plus the Earth override. -/
theorem C2_temperature_rounded_witness :
    fracPlanet.ellipticalOrbit = some fracOrbit ∧
    fracOrbit.semiMajorAxis ≠ 0 ∧
    calculateMockTemperature fracPlanet
      = jsRound (temperatureSpecFormula fracOrbit.semiMajorAxis) ∧
    calculateMockTemperature earthPlanet = 288 :=
  ⟨rfl, by norm_num [fracOrbit],
    C2_temperature_rounded.2.2.1 fracPlanet fracOrbit rfl
      (by norm_num [fracOrbit]) (by decide) (by decide),
    C2_temperature_rounded.1 earthPlanet rfl⟩

/-- C2 counterexample: at semi-major axis 25/9 the un-rounded formula
yields 172.8 while the code returns the rounded 173, so the claim's
"returns 288 * semiMajorAxisAU^(-0.5)" does not hold verbatim. -/
theorem C2_temperature_rounding_counterexample :
    fracPlanet.ellipticalOrbit = some fracOrbit ∧
    fracPlanet.name ≠ "Earth" ∧ fracPlanet.name ≠ "Jupiter" ∧
    fracOrbit.semiMajorAxis = 25/9 ∧
    calculateMockTemperature fracPlanet = 173 ∧
    temperatureSpecFormula fracOrbit.semiMajorAxis = 864/5 ∧
    (173:ℝ) ≠ 864/5 := by
  have hval : ((25/9:ℚ) : ℝ) = 25/9 := by norm_num
  have hspec : temperatureSpecFormula (25/9) = 864/5 := by
    unfold temperatureSpecFormula
    rw [hval, rpow_neg_half_frac]
    norm_num
  refine ⟨rfl, by decide, by decide, rfl, ?_, hspec, by norm_num⟩
  unfold calculateMockTemperature
  rw [if_neg (by decide), if_neg (by decide)]
  simp only [fracPlanet, fracOrbit, Option.map_some', jsOr]
  rw [if_neg (by norm_num), hval, rpow_neg_half_frac]
  unfold jsRound
  have hfloor : ⌊(288:ℝ) * (3/5) + 1/2⌋ = 173 := by
    rw [Int.floor_eq_iff]
    norm_num
  rw [hfloor]
  norm_num

/-- C6 (amended): for every non-empty search query, if exactly one catalog
record matches it case-insensitively on name, id or system, the viewer
selects that record (by its full-catalog index); on zero or multiple
matches the viewer state is unchanged.  (The empty query is discarded
outright even though it trivially matches every record, which is what the
counterexample exhibits.) -/
theorem C6_search_unique_match (planets : List Planet) (v : Dual.Viewer)
    (rawQuery : String) (hq : rawQuery ≠ "") :
    (∀ m : Planet,
      planets.filter (Dual.matchesQuery (Dual.jsLower rawQuery)) = [m] →
      (Dual.searchInput planets v rawQuery).currentPlanet = some m ∧
      (Dual.searchInput planets v rawQuery).currentPlanetIndex
        = ((planets.indexOf m : ℕ) : ℤ)) ∧
    ((planets.filter (Dual.matchesQuery (Dual.jsLower rawQuery))).length ≠ 1 →
      Dual.searchInput planets v rawQuery = v) := by
  have hql : ¬(Dual.jsLower rawQuery = []) := by
    unfold Dual.jsLower
    rw [List.map_eq_nil_iff]
    intro hdata
    exact hq (String.ext (by rw [hdata]))
  constructor
  · intro m hm
    have hmem : m ∈ planets :=
      List.mem_of_mem_filter (by rw [hm]; exact List.mem_singleton_self m)
    have hidx : planets.indexOf m < planets.length :=
      List.indexOf_lt_length.mpr hmem
    have hguard : ¬(((planets.indexOf m : ℕ) : ℤ) < 0 ∨
        (planets.length : ℤ) ≤ ((planets.indexOf m : ℕ) : ℤ)) := by
      rw [not_or]
      refine ⟨not_lt.mpr (Int.natCast_nonneg _), not_le.mpr ?_⟩
      exact_mod_cast hidx
    have hshow : Dual.searchInput planets v rawQuery
        = Dual.showPlanet planets v ((planets.indexOf m : ℕ) : ℤ) := by
      simp only [Dual.searchInput]
      rw [if_neg hql, hm]
      rfl
    rw [hshow]
    unfold Dual.showPlanet
    rw [if_neg hguard]
    constructor
    · simp only [Int.toNat_natCast]
      rw [List.getElem?_eq_getElem hidx, List.getElem_indexOf hidx]
    · rfl
  · intro hlen
    simp only [Dual.searchInput]
    rw [if_neg hql, if_neg hlen]

/-- C6 witness: on the two-record catalog, the query `"Kep"` matches only
the exoplanet record, and the viewer selects it. -/
theorem C6_search_unique_match_witness :
    ("Kep" : String) ≠ "" ∧
    [earthPlanet, koi1].filter (Dual.matchesQuery (Dual.jsLower "Kep")) = [koi1] ∧
    (Dual.searchInput [earthPlanet, koi1] freshViewer "Kep").currentPlanet = some koi1 :=
  ⟨by decide, by rfl,
    ((C6_search_unique_match [earthPlanet, koi1] freshViewer "Kep" (by decide)).1
      koi1 (by rfl)).1⟩

/-- C6 counterexample: the empty query is a search query that matches
every record as a case-insensitive substring, so on a one-record catalog
it has exactly one match — yet the handler discards it (falsy guard) and
leaves the fresh viewer's selection unchanged instead of selecting that
record. -/
theorem C6_search_empty_query_counterexample :
    ([Loader.examplePlanet].filter (Dual.matchesQuery (Dual.jsLower ""))).length = 1 ∧
    Dual.searchInput [Loader.examplePlanet] freshViewer "" = freshViewer ∧
    (Dual.searchInput [Loader.examplePlanet] freshViewer "").currentPlanet
      ≠ some Loader.examplePlanet := by
  refine ⟨by decide, rfl, by decide⟩

end Celestia
